import Mathlib

/-!
Verification of the bootstrap module `gptme/init.py`.

The module is shallowly embedded: external collaborators (config store,
dotenv, LLM layer, readline, tab completion, tool subsystem) are modelled
as opaque effects recorded in an ordered trace, and the config store is an
abstract key-to-value map passed in.  Python truthiness on optional strings
(`if not provider:`) is modelled explicitly by `pyTruthy`.
-/

/-- The closed provider set, from `PROVIDERS` in the source. -/
def PROVIDERS : List String := ["openai", "anthropic", "azure", "local"]

/-- The closed Provider set of the spec as a type (spec section 3: one of
openai, anthropic, azure, local). -/
inductive Provider where
  | openai
  | anthropic
  | azure
  | local_
deriving DecidableEq, Repr

/-- The string naming each member of the closed provider set. -/
def providerName : Provider → String
  | .openai => "openai"
  | .anthropic => "anthropic"
  | .azure => "azure"
  | .local_ => "local"

/-- The config store: `config.get_env(key)` returns an optional string.
External collaborator, modelled as an abstract map. -/
structure Config where
  get_env : String → Option String

/-- Python truthiness of an optional string: `None` and `""` are falsy,
every other string is truthy.  Models `if not provider:` etc. -/
def pyTruthy : Option String → Bool
  | none => false
  | some s => s != ""

/-- The code points Python `str.isspace()` accepts (the CPython Unicode
whitespace table), which is the character class `str.strip()` removes:
the ASCII whitespace characters plus FS/GS/RS/US and the Unicode
whitespace code points (NEL, NBSP, OGHAM SPACE MARK, the U+2000-U+200A
spaces, LINE/PARAGRAPH SEPARATOR, NARROW NO-BREAK SPACE, MEDIUM
MATHEMATICAL SPACE, IDEOGRAPHIC SPACE). -/
def pySpaceCodes : List Nat :=
  [0x09, 0x0A, 0x0B, 0x0C, 0x0D, 0x1C, 0x1D, 0x1E, 0x1F, 0x20,
   0x85, 0xA0, 0x1680, 0x2000, 0x2001, 0x2002, 0x2003, 0x2004, 0x2005,
   0x2006, 0x2007, 0x2008, 0x2009, 0x200A, 0x2028, 0x2029, 0x202F, 0x205F, 0x3000]

/-- Python whitespace, as stripped by `str.strip()`. -/
def isPySpace (c : Char) : Bool :=
  pySpaceCodes.contains c.toNat

/-- Python `str.strip()`: remove leading and trailing whitespace. -/
def pyStrip (s : String) : String :=
  String.mk (((s.toList.dropWhile isPySpace).reverse.dropWhile isPySpace).reverse)

/-- Python `str.startswith(p)`: the character sequence of `s` begins with
that of `p`. -/
def pyStartsWith (s p : String) : Bool :=
  p.toList.isPrefixOf s.toList

/-- Observable side effects of the bootstrap, in program order.
`warnInitTwice` is the logger warning on a repeated call; `readLine` is the
blocking `input()` read; the rest name the external calls made by `init`. -/
inductive Effect where
  | warnInitTwice
  | loadDotenv
  | loadConfig
  | print (s : String)
  | readLine
  | setConfigValue (key value : String)
  | initLLM (provider : String)
  | setDefaultModel (model : String)
  | loadReadlineHistory
  | registerTabcomplete
  | initTools
deriving DecidableEq, Repr

/-- Result of `ask_for_api_key`: the classified provider, the credential
string it returns, and the effects it performs. -/
structure PromptResult where
  provider : String
  api_key : String
  trace : List Effect
deriving DecidableEq, Repr

/-- Function `ask_for_api_key` from the source: print guidance, read one line,
strip it, classify by the `sk-ant-` string prefix, persist under the
provider-specific config key, report, and return `(provider, api_key)`. -/
def ask_for_api_key (line : String) : PromptResult :=
  let api_key := pyStrip line
  let anth := pyStartsWith api_key "sk-ant-"
  let env_var := if anth then "ANTHROPIC_API_KEY" else "OPENAI_API_KEY"
  { provider := if anth then "anthropic" else "openai"
    api_key := api_key
    trace := [Effect.print "No API key set for OpenAI or Anthropic.",
              Effect.print "You can get one at:\n - OpenAI: https://platform.openai.com/account/api-keys\n - Anthropic: https://console.anthropic.com/settings/keys\n ",
              Effect.readLine,
              Effect.setConfigValue ("env." ++ env_var) api_key,
              Effect.print "API key saved to config at config_path"] }

/-- Provider resolution, lines 34-47 of the source: explicit argument if
truthy, else config `PROVIDER`, else auto-detect from stored credentials
(OpenAI before Anthropic), else the interactive prompt.  Returns the final
value of the `provider` variable and the effects performed. -/
def resolve_provider (p0 : Option String) (config : Config) (interactive : Bool)
    (line : String) : Option String × List Effect :=
  let p1 := if pyTruthy p0 then p0 else config.get_env "PROVIDER"
  if pyTruthy p1 then (p1, [])
  else if pyTruthy (config.get_env "OPENAI_API_KEY") then
    (some "openai", [Effect.print "Found OpenAI API key, using OpenAI provider"])
  else if pyTruthy (config.get_env "ANTHROPIC_API_KEY") then
    (some "anthropic", [Effect.print "Found Anthropic API key, using Anthropic provider"])
  else if interactive then
    let r := ask_for_api_key line
    (some r.provider, r.trace)
  else (p1, [])

/-- Outcome of one `init` call: a repeated call returns after a warning
(`skipped`), a completed call resolved a provider and model (`ok`), and an
exhausted provider chain raises `ValueError` (`error`). -/
inductive InitResult where
  | skipped
  | ok (provider model : String)
  | error (msg : String)
deriving DecidableEq, Repr

/-- The body of `init` once the `_init_done` guard has passed: load dotenv
and config, resolve the provider, fail if it is still falsy, otherwise set
up the LLM, select the model (explicit argument, else truthy config
`MODEL`, else the external recommended default `recModel`), set it, load
history and tab completion when interactive, and init tools. -/
def initBody (p0 m0 : Option String) (interactive : Bool) (config : Config)
    (line recModel : String) : InitResult × List Effect :=
  let r := resolve_provider p0 config interactive line
  let t01 := [Effect.loadDotenv, Effect.loadConfig] ++ r.2
  if pyTruthy r.1 then
    let p := r.1.getD ""
    let m := if pyTruthy m0 then m0.getD ""
             else if pyTruthy (config.get_env "MODEL") then (config.get_env "MODEL").getD ""
             else recModel
    (InitResult.ok p m,
     t01 ++ [Effect.initLLM p, Effect.setDefaultModel m]
         ++ (if interactive then [Effect.loadReadlineHistory, Effect.registerTabcomplete] else [])
         ++ [Effect.initTools])
  else
    (InitResult.error "No API key found, couldn\x27t auto-detect provider", t01)

/-- State after one `init` call: the `_init_done` flag, the result, and the
trace of effects this call performed. -/
structure InitOutcome where
  initDone : Bool
  result : InitResult
  trace : List Effect
deriving DecidableEq, Repr

/-- Function `init` from the source: if `_init_done` is already set, warn and
return; otherwise set the flag first (before any work) and run the body. -/
def init (p0 m0 : Option String) (interactive : Bool) (config : Config)
    (line recModel : String) (initDone : Bool) : InitOutcome :=
  if initDone then
    { initDone := true, result := InitResult.skipped, trace := [Effect.warnInitTwice] }
  else
    let r := initBody p0 m0 interactive config line recModel
    { initDone := true, result := r.1, trace := r.2 }

/-- The provider a result resolved, if any. -/
def providerOf : InitResult → Option String
  | .ok p _ => some p
  | _ => none

/-- The model a result selected, if any. -/
def modelOf : InitResult → Option String
  | .ok _ m => some m
  | _ => none

/-- Whether a result is the raised `ValueError`. -/
def isErr : InitResult → Bool
  | .error _ => true
  | _ => false

/-- Whether an effect is the repeated-call warning. -/
def isWarn : Effect → Bool
  | .warnInitTwice => true
  | _ => false

/-- Whether an effect writes the config store. -/
def isSetConfig : Effect → Bool
  | .setConfigValue _ _ => true
  | _ => false

/-- Whether an effect is the provider credential/environment setup. -/
def isInitLLM : Effect → Bool
  | .initLLM _ => true
  | _ => false

/-- Whether an effect initializes the interactive history store. -/
def isHistoryInit : Effect → Bool
  | .loadReadlineHistory => true
  | _ => false

/-- Whether an effect prints to standard output. -/
def isPrint : Effect → Bool
  | .print _ => true
  | _ => false

/-- Whether an effect is the blocking line read. -/
def isReadLine : Effect → Bool
  | .readLine => true
  | _ => false

/-- In a trace, credential setup completes strictly before history
initialization: at and after the first history-init effect there is no
config write and no LLM setup, and if a history-init effect occurs at all
then an LLM-setup effect precedes it. -/
def credSetupBeforeHistory (t : List Effect) : Bool :=
  let pre := t.takeWhile (fun e => !(isHistoryInit e))
  let post := t.dropWhile (fun e => !(isHistoryInit e))
  (post.all fun e => !(isSetConfig e) && !(isInitLLM e)) &&
    (post.isEmpty || pre.any isInitLLM)

/-- The default history seed from the source (`history_examples`). -/
def history_examples : List String :=
  ["What is love?",
   "Have you heard about an open-source app called ActivityWatch?",
   "Explain \x27Attention is All You Need\x27 in the style of Andrej Karpathy.",
   "Explain how public-key cryptography works as if I\x27m five.",
   "Write a Python script that prints the first 100 prime numbers.",
   "Find all TODOs in the current git project"]

/-- The suffix of at most `k` most recent elements of a list. -/
def lastK (k : Nat) (xs : List α) : List α :=
  (xs.reverse.take k).reverse

/-- Modelled from the spec: the in-memory readline history state.  The
readline library itself is not part of this repository (only its caller
`_load_readline_history` is under src), so its state is modelled from the
spec, section 4.5: entries oldest-first, a cap, and an auto-record flag. -/
structure HistoryState where
  auto_history : Bool
  history_length : Nat
  entries : List String
deriving DecidableEq, Repr

/-- Modelled from the spec: `readline.set_auto_history`. -/
def set_auto_history (b : Bool) (st : HistoryState) : HistoryState :=
  { st with auto_history := b }

/-- Modelled from the spec: `readline.set_history_length`. -/
def set_history_length (n : Nat) (st : HistoryState) : HistoryState :=
  { st with history_length := n }

/-- Modelled from the spec: `readline.add_history` records one entry and
applies FIFO eviction at the cap continuously (spec section 4.5: oldest
entries are discarded first once the cap is exceeded, applied continuously
during the session). -/
def add_history (line : String) (st : HistoryState) : HistoryState :=
  { st with entries := lastK st.history_length (st.entries ++ [line]) }

/-- Recording a sequence of entries in order. -/
def record (st : HistoryState) (ls : List String) : HistoryState :=
  ls.foldl (fun s l => add_history l s) st

/-- Modelled from the spec: `readline.read_history_file` returns the lines
of the file at the path, or raises `FileNotFoundError` when the file does
not exist (`none`). -/
def read_history_file : Option (List String) → Except String (List String)
  | none => Except.error "FileNotFoundError"
  | some ls => Except.ok ls

/-- Function `_load_readline_history` from the source: enable auto history, set the
cap to 100, try to read the history file, and on `FileNotFoundError` seed
the history with `history_examples` instead.  The `try/except` around the
read is the only handler, so the result is `Except`: `.error` would be an
uncaught exception. -/
def _load_readline_history (file : Option (List String)) (st : HistoryState) :
    Except String HistoryState :=
  let st1 := set_auto_history true st
  let st2 := set_history_length 100 st1
  match read_history_file file with
  | Except.ok ls => Except.ok (record st2 ls)
  | Except.error _ => Except.ok (record st2 history_examples)

/-- The entries of a non-throwing history-load result. -/
def entriesOf : Except String HistoryState → Option (List String)
  | Except.ok st => some st.entries
  | Except.error _ => none

/-- Follows the words of the spec (section 4.2, steps 3-4): auto-detection
chooses `openai` when a stored OpenAI credential exists, else `anthropic`
when a stored Anthropic one exists (OpenAI strictly first); else, when
interactive, the provider returned by the credential prompt; else nothing.
A stored credential exists when the key holds a non-empty value. -/
def autodetectSpec (config : Config) (interactive : Bool) (line : String) : Option String :=
  if pyTruthy (config.get_env "OPENAI_API_KEY") then some "openai"
  else if pyTruthy (config.get_env "ANTHROPIC_API_KEY") then some "anthropic"
  else if interactive then some (ask_for_api_key line).provider
  else none

/-- Follows the words of the spec (section 4.2): the provider precedence chain,
highest first: the explicit argument (a member of the closed Provider set)
if supplied; else the config `PROVIDER` value if present and non-empty;
else auto-detection; `none` means the chain is exhausted and resolution
fails with a configuration error. -/
def resolveSpec (explicit : Option Provider) (config : Config) (interactive : Bool)
    (line : String) : Option String :=
  match explicit with
  | some p => some (providerName p)
  | none =>
      match config.get_env "PROVIDER" with
      | some s => if s = "" then autodetectSpec config interactive line else some s
      | none => autodetectSpec config interactive line

/-- Model selection from a config `MODEL` value that is present and
non-empty, else the recommended default of the provider, `recModel`. -/
def modelFromConfig (config : Config) (recModel : String) : String :=
  match config.get_env "MODEL" with
  | some s => if s = "" then recModel else s
  | none => recModel

/-- Follows the words of the amended claim: the explicit model argument if
supplied and non-empty; otherwise the config `MODEL` value if present and
non-empty; otherwise the recommended default. -/
def modelSelectSpec (explicit : Option String) (config : Config) (recModel : String) : String :=
  match explicit with
  | some m => if m = "" then modelFromConfig config recModel else m
  | none => modelFromConfig config recModel

lemma lastK_length_le (k : Nat) (xs : List α) : (lastK k xs).length ≤ k := by
  simp [lastK]

lemma lastK_of_length_le {k : Nat} (xs : List α) (h : xs.length ≤ k) :
    lastK k xs = xs := by
  unfold lastK
  rw [List.take_of_length_le (by simpa using h), List.reverse_reverse]

lemma lastK_append_left {k : Nat} (xs ys : List α) (h : k ≤ ys.length) :
    lastK k (xs ++ ys) = lastK k ys := by
  unfold lastK
  rw [List.reverse_append, List.take_append_of_le_length (by simpa using h)]

lemma lastK_append_lastK (k : Nat) (xs ys : List α) :
    lastK k (lastK k xs ++ ys) = lastK k (xs ++ ys) := by
  unfold lastK
  rw [List.reverse_append, List.reverse_reverse, List.reverse_append,
    List.take_append_eq_append_take, List.take_append_eq_append_take,
    List.take_take, Nat.min_eq_left (Nat.sub_le k _)]

lemma record_cons (st : HistoryState) (l : String) (ls : List String) :
    record st (l :: ls) = record (add_history l st) ls := rfl

lemma record_history_length (st : HistoryState) (ls : List String) :
    (record st ls).history_length = st.history_length := by
  induction ls generalizing st with
  | nil => rfl
  | cons l ls ih => rw [record_cons, ih]; rfl

lemma record_entries (ls : List String) (st : HistoryState)
    (h : st.entries.length ≤ st.history_length) :
    (record st ls).entries = lastK st.history_length (st.entries ++ ls) := by
  induction ls generalizing st with
  | nil =>
    simpa [record] using (lastK_of_length_le st.entries h).symm
  | cons l ls ih =>
    rw [record_cons, ih (add_history l st) (by simpa [add_history] using lastK_length_le _ _)]
    show lastK st.history_length (lastK st.history_length (st.entries ++ [l]) ++ ls) = _
    rw [lastK_append_lastK, List.append_assoc]
    rfl

/-- C8: within a session started by `_load_readline_history` (with or
without an existing history file), the retained history never exceeds 100
entries at any point, and after recording 150 sequential entries exactly
the 100 most recent are retained, oldest evicted first. -/
theorem history_cap_after_150 (file : Option (List String)) (a : Bool) (n : Nat)
    (st' : HistoryState) (inputs : List String) (k : Nat)
    (hload : _load_readline_history file ⟨a, n, []⟩ = Except.ok st')
    (h150 : inputs.length = 150) :
    ((record st' (inputs.take k)).entries).length ≤ 100 ∧
      (record st' inputs).entries = inputs.drop 50 := by
  have hst : st'.history_length = 100 ∧ st'.entries.length ≤ 100 := by
    have hform : ∃ ls, st' = record ⟨true, 100, []⟩ ls := by
      cases file with
      | none =>
        exact ⟨history_examples, by
          simpa [_load_readline_history, read_history_file, set_auto_history,
            set_history_length] using hload.symm⟩
      | some ls =>
        exact ⟨ls, by
          simpa [_load_readline_history, read_history_file, set_auto_history,
            set_history_length] using hload.symm⟩
    obtain ⟨ls, hls⟩ := hform
    subst hls
    constructor
    · exact record_history_length _ _
    · rw [record_entries ls ⟨true, 100, []⟩ (by simp)]
      exact lastK_length_le _ _
  constructor
  · rw [record_entries _ _ (hst.1 ▸ hst.2), hst.1]
    exact lastK_length_le _ _
  · rw [record_entries _ _ (hst.1 ▸ hst.2), hst.1,
      lastK_append_left _ _ (by rw [h150]; omega)]
    calc lastK 100 inputs
        = lastK 100 (inputs.take 50 ++ inputs.drop 50) := by rw [List.take_append_drop]
      _ = lastK 100 (inputs.drop 50) := by
          exact lastK_append_left _ _ (by rw [List.length_drop, h150])
      _ = inputs.drop 50 := lastK_of_length_le _ (by rw [List.length_drop, h150])

/-- C8 witness: from an absent history file, recording the 150 entries
"0", "1", ..., "149" leaves exactly the 100 most recent, and any 130-entry
cut of the session never exceeded the cap. -/
theorem history_cap_after_150_witness :
    ((record (record (set_history_length 100 (set_auto_history true ⟨true, 0, []⟩))
          history_examples) (((List.range 150).map toString).take 130)).entries).length ≤ 100 ∧
      (record (record (set_history_length 100 (set_auto_history true ⟨true, 0, []⟩))
          history_examples) ((List.range 150).map toString)).entries
        = ((List.range 150).map toString).drop 50 :=
  history_cap_after_150 none true 0 _ ((List.range 150).map toString) 130 rfl
    (by simp [List.length_map, List.length_range])

/-- C9: initializing the history store against a nonexistent file path does
not throw and seeds the in-memory history with exactly the fixed example
prompts; against an existing file it loads the entries of that file (capped to
the 100 most recent) and adds no examples. -/
theorem history_seeding_on_missing_file (a : Bool) (n : Nat) (ls : List String) :
    entriesOf (_load_readline_history none ⟨a, n, []⟩) = some history_examples ∧
      entriesOf (_load_readline_history (some ls) ⟨a, n, []⟩) = some (lastK 100 ls) := by
  constructor
  · show some (record ⟨true, 100, []⟩ history_examples).entries = some history_examples
    decide
  · show some (record ⟨true, 100, []⟩ ls).entries = some (lastK 100 ls)
    rw [record_entries ls ⟨true, 100, []⟩ (by simp)]
    rfl

lemma pyTruthy_some_iff (s : String) : pyTruthy (some s) = true ↔ s ≠ "" := by
  simp [pyTruthy]

lemma ask_provider_truthy (line : String) :
    pyTruthy (some (ask_for_api_key line).provider) = true := by
  unfold ask_for_api_key
  by_cases h : pyStartsWith (pyStrip line) "sk-ant-" <;> simp [h, pyTruthy]

lemma pyTruthy_none : pyTruthy none = false := rfl

lemma pyTruthy_empty : pyTruthy (some "") = false := rfl

lemma pyTruthy_openai : pyTruthy (some "openai") = true := rfl

lemma pyTruthy_anthropic : pyTruthy (some "anthropic") = true := rfl

/-- The provider-resolution result of the code, guarded by the truthiness
test that `init` applies afterwards, agrees with the precedence chain of
the spec. -/
lemma resolve_match (explicit : Option Provider) (config : Config) (interactive : Bool)
    (line : String) :
    (if pyTruthy (resolve_provider (explicit.map providerName) config interactive line).1
     then (resolve_provider (explicit.map providerName) config interactive line).1
     else none) = resolveSpec explicit config interactive line := by
  cases explicit with
  | some p =>
    cases p <;> simp [resolve_provider, resolveSpec, providerName, pyTruthy]
  | none =>
    simp only [Option.map_none']
    cases hP : config.get_env "PROVIDER" with
    | none =>
      by_cases hO : pyTruthy (config.get_env "OPENAI_API_KEY") <;>
        by_cases hA : pyTruthy (config.get_env "ANTHROPIC_API_KEY") <;>
          cases interactive <;>
            simp [resolve_provider, resolveSpec, autodetectSpec, hP, hO, hA,
              pyTruthy_none, pyTruthy_openai, pyTruthy_anthropic, ask_provider_truthy]
    | some s =>
      by_cases hs : s = ""
      · subst hs
        by_cases hO : pyTruthy (config.get_env "OPENAI_API_KEY") <;>
          by_cases hA : pyTruthy (config.get_env "ANTHROPIC_API_KEY") <;>
            cases interactive <;>
              simp [resolve_provider, resolveSpec, autodetectSpec, hP, hO, hA, pyTruthy_none,
                pyTruthy_empty, pyTruthy_openai, pyTruthy_anthropic, ask_provider_truthy]
      · have ht : pyTruthy (some s) = true := by simp [pyTruthy, hs]
        simp [resolve_provider, resolveSpec, hP, ht, pyTruthy_none, hs]

/-- C1: on a fresh process, `init` resolves the provider by exactly the
precedence chain of the spec — explicit argument, then non-empty config
`PROVIDER`, then auto-detection (OpenAI strictly before Anthropic), then
the interactive credential prompt — and fails with the configuration error
exactly when the chain is exhausted. -/
theorem init_provider_precedence (explicit : Option Provider) (m0 : Option String)
    (interactive : Bool) (config : Config) (line recModel : String) :
    providerOf (init (explicit.map providerName) m0 interactive config line recModel false).result
        = resolveSpec explicit config interactive line ∧
      isErr (init (explicit.map providerName) m0 interactive config line recModel false).result
        = (resolveSpec explicit config interactive line).isNone := by
  have h := resolve_match explicit config interactive line
  by_cases hT : pyTruthy (resolve_provider (explicit.map providerName) config interactive line).1
  · rw [if_pos hT] at h
    rw [← h]
    cases hr : (resolve_provider (explicit.map providerName) config interactive line).1 with
    | none => rw [hr] at hT; simp [pyTruthy_none] at hT
    | some s =>
      rw [hr] at hT
      constructor
      · simp [init, initBody, hT, providerOf, hr]
      · simp [init, initBody, hT, isErr, hr]
  · rw [if_neg hT] at h
    rw [← h]
    constructor
    · simp [init, initBody, hT, providerOf]
    · simp [init, initBody, hT, isErr]

lemma init_sets_done (p0 m0 : Option String) (interactive : Bool) (config : Config)
    (line recModel : String) (d : Bool) :
    (init p0 m0 interactive config line recModel d).initDone = true := by
  cases d <;> rfl

/-- C2: once `init` has run — whether it completed or failed partway, since
the flag is set before any work — every later call only emits the warning
and returns: it is `skipped`, performs no other effect, and the combined
observable side effects of two calls equal those of the first alone. -/
theorem init_second_call_noop (pa ma : Option String) (ia : Bool) (ca : Config)
    (la ra : String) (pb mb : Option String) (ib : Bool) (cb : Config) (lb rb : String) :
    (init pb mb ib cb lb rb (init pa ma ia ca la ra false).initDone).result
        = InitResult.skipped ∧
      (init pb mb ib cb lb rb (init pa ma ia ca la ra false).initDone).trace
        = [Effect.warnInitTwice] ∧
      (init pb mb ib cb lb rb (init pa ma ia ca la ra false).initDone).initDone = true ∧
      ((init pa ma ia ca la ra false).trace
          ++ (init pb mb ib cb lb rb (init pa ma ia ca la ra false).initDone).trace).filter
          (fun e => !(isWarn e))
        = (init pa ma ia ca la ra false).trace.filter (fun e => !(isWarn e)) := by
  rw [init_sets_done pa ma ia ca la ra false]
  refine ⟨rfl, rfl, rfl, ?_⟩
  simp [init, isWarn, List.filter_append]

/-- C4: with no explicit provider, `interactive=false`, and a config with
no `PROVIDER` value and no OpenAI or Anthropic credential, `init` raises
the configuration error, and its whole trace is just the dotenv and config
loads: no credential setup, no model selection, no history initialization,
and no tool initialization happen after the failed resolution. -/
theorem init_no_provider_error_stops (m0 : Option String) (config : Config)
    (line recModel : String)
    (hP : config.get_env "PROVIDER" = none)
    (hO : config.get_env "OPENAI_API_KEY" = none)
    (hA : config.get_env "ANTHROPIC_API_KEY" = none) :
    isErr (init none m0 false config line recModel false).result = true ∧
      (init none m0 false config line recModel false).trace
        = [Effect.loadDotenv, Effect.loadConfig] := by
  constructor <;>
    simp [init, initBody, resolve_provider, hP, hO, hA, pyTruthy_none, isErr]

/-- C4 witness: the failure and the truncated trace on the empty config. -/
theorem init_no_provider_error_stops_witness :
    isErr (init none none false ⟨fun _ => none⟩ "" "gpt-4o" false).result = true ∧
      (init none none false ⟨fun _ => none⟩ "" "gpt-4o" false).trace
        = [Effect.loadDotenv, Effect.loadConfig] :=
  init_no_provider_error_stops none ⟨fun _ => none⟩ "" "gpt-4o" rfl rfl rfl

/-- C5 counterexample: the input line " sk-ant-x" does not start with the
literal `sk-ant-` string prefix, so the claim classifies it as OpenAI with
key `env.OPENAI_API_KEY`; the program strips the line before the check and
persists it under `env.ANTHROPIC_API_KEY` as Anthropic instead. -/
theorem ask_for_api_key_unstripped_classification_counterexample :
    pyStartsWith " sk-ant-x" "sk-ant-" = false ∧
      (ask_for_api_key " sk-ant-x").provider = "anthropic" ∧
      Effect.setConfigValue "env.ANTHROPIC_API_KEY" "sk-ant-x"
        ∈ (ask_for_api_key " sk-ant-x").trace ∧
      Effect.setConfigValue "env.OPENAI_API_KEY" "sk-ant-x"
        ∉ (ask_for_api_key " sk-ant-x").trace ∧
      Effect.setConfigValue "env.OPENAI_API_KEY" " sk-ant-x"
        ∉ (ask_for_api_key " sk-ant-x").trace := by
  decide

/-- C5 amended: for every input line, the credential prompt classifies the
accepted credential — the line after stripping leading and trailing
whitespace, Python `str.strip()` — by the literal `sk-ant-` string prefix:
Anthropic and key `env.ANTHROPIC_API_KEY` when it matches, OpenAI and key
`env.OPENAI_API_KEY` otherwise (the empty string included); it persists
the credential under that key, and performs only console output, the
single line read, and that config write: no live-service validation. -/
theorem ask_for_api_key_classification (line : String) :
    (ask_for_api_key line).provider
        = (if pyStartsWith (pyStrip line) "sk-ant-" then "anthropic" else "openai") ∧
      Effect.setConfigValue
          ("env." ++ (if pyStartsWith (pyStrip line) "sk-ant-" then "ANTHROPIC_API_KEY"
                      else "OPENAI_API_KEY")) (pyStrip line)
        ∈ (ask_for_api_key line).trace ∧
      ((ask_for_api_key line).trace.all fun e => isPrint e || isReadLine e || isSetConfig e)
        = true := by
  refine ⟨?_, ?_, ?_⟩
  · by_cases h : pyStartsWith (pyStrip line) "sk-ant-" <;> simp [ask_for_api_key, h]
  · by_cases h : pyStartsWith (pyStrip line) "sk-ant-" <;> simp [ask_for_api_key, h]
  · by_cases h : pyStartsWith (pyStrip line) "sk-ant-" <;>
      simp [ask_for_api_key, h, isPrint, isReadLine, isSetConfig]

/-- C6 counterexample: for the input line " abc " the prompt persists and
returns "abc", not the line exactly as read: the value is stripped. -/
theorem ask_for_api_key_strips_counterexample :
    (ask_for_api_key " abc ").api_key = "abc" ∧ " abc " ≠ "abc" ∧
      Effect.setConfigValue "env.OPENAI_API_KEY" "abc" ∈ (ask_for_api_key " abc ").trace := by
  refine ⟨by decide, by decide, ?_⟩
  simp [ask_for_api_key]
  decide

/-- C6 amended: the prompt reads exactly one line with no retry loop, and
the credential it persists to config and returns is that line with leading
and trailing whitespace stripped (Python `str.strip()`), otherwise
unmodified. -/
theorem ask_for_api_key_reads_once_strips (line : String) :
    (ask_for_api_key line).api_key = pyStrip line ∧
      ((ask_for_api_key line).trace.countP isReadLine) = 1 ∧
      ((ask_for_api_key line).trace.filter isSetConfig)
        = [Effect.setConfigValue
            ("env." ++ (if pyStartsWith (pyStrip line) "sk-ant-" then "ANTHROPIC_API_KEY"
                        else "OPENAI_API_KEY")) (pyStrip line)] := by
  refine ⟨rfl, ?_, ?_⟩
  · simp [ask_for_api_key, isReadLine, List.countP_cons]
  · by_cases h : pyStartsWith (pyStrip line) "sk-ant-" <;>
      simp [ask_for_api_key, h, isSetConfig]

/-- C7 counterexample: the explicit model argument "" is supplied, yet the
selected model is the recommended default, not "": the code treats a falsy
explicit model as absent. -/
theorem model_selection_empty_explicit_counterexample :
    modelOf (init (some "openai") (some "") false ⟨fun _ => none⟩ "" "gpt-4o" false).result
        = some "gpt-4o" ∧ "gpt-4o" ≠ "" := by
  exact ⟨rfl, by decide⟩

lemma modelSelect_code_eq (m0 : Option String) (config : Config) (recModel : String) :
    (if pyTruthy m0 then m0.getD ""
     else if pyTruthy (config.get_env "MODEL") then (config.get_env "MODEL").getD ""
     else recModel) = modelSelectSpec m0 config recModel := by
  cases m0 with
  | some m =>
    by_cases hm : m = ""
    · subst hm
      cases hM : config.get_env "MODEL" with
      | none => simp [pyTruthy_empty, pyTruthy_none, hM, modelSelectSpec, modelFromConfig]
      | some s =>
        by_cases hs : s = ""
        · subst hs
          simp [pyTruthy_empty, hM, modelSelectSpec, modelFromConfig]
        · have ht : pyTruthy (some s) = true := by simp [pyTruthy, hs]
          simp [pyTruthy_empty, hM, ht, modelSelectSpec, modelFromConfig, hs]
    · have ht : pyTruthy (some m) = true := by simp [pyTruthy, hm]
      simp [ht, modelSelectSpec, hm]
  | none =>
    cases hM : config.get_env "MODEL" with
    | none => simp [pyTruthy_none, hM, modelSelectSpec, modelFromConfig]
    | some s =>
      by_cases hs : s = ""
      · subst hs
        simp [pyTruthy_none, pyTruthy_empty, hM, modelSelectSpec, modelFromConfig]
      · have ht : pyTruthy (some s) = true := by simp [pyTruthy, hs]
        simp [pyTruthy_none, hM, ht, modelSelectSpec, modelFromConfig, hs]

/-- C7 amended: when `init` completes, the selected model is the explicit
argument if supplied and non-empty, else the config `MODEL` value if
present and non-empty, else the provider\x27s recommended default; and
whenever the provider resolves, model selection itself never fails. -/
theorem model_selection_precedence_amended (p0 m0 : Option String) (interactive : Bool)
    (config : Config) (line recModel : String) :
    (∀ p m, (init p0 m0 interactive config line recModel false).result = InitResult.ok p m →
        m = modelSelectSpec m0 config recModel) ∧
      (pyTruthy (resolve_provider p0 config interactive line).1 = true →
        ∃ p m, (init p0 m0 interactive config line recModel false).result
          = InitResult.ok p m) := by
  constructor
  · intro p m h
    by_cases hT : pyTruthy (resolve_provider p0 config interactive line).1
    · simp [init, initBody, hT] at h
      rw [← h.2, modelSelect_code_eq]
    · simp [init, initBody, hT] at h
  · intro hT
    refine ⟨(resolve_provider p0 config interactive line).1.getD "",
      if pyTruthy m0 then m0.getD ""
      else if pyTruthy (config.get_env "MODEL") then (config.get_env "MODEL").getD ""
      else recModel, ?_⟩
    simp [init, initBody, hT]

/-- C7 amended witness: with no explicit model and an empty config, the
model selected for the explicit provider is the recommended default. -/
theorem model_selection_precedence_amended_witness :
    ("gpt-4o" = modelSelectSpec none ⟨fun _ => none⟩ "gpt-4o") ∧
      ∃ p m, (init (some "openai") none false ⟨fun _ => none⟩ "" "gpt-4o" false).result
        = InitResult.ok p m :=
  ⟨(model_selection_precedence_amended (some "openai") none false ⟨fun _ => none⟩ ""
        "gpt-4o").1 "openai" "gpt-4o" rfl,
    (model_selection_precedence_amended (some "openai") none false ⟨fun _ => none⟩ ""
        "gpt-4o").2 rfl⟩

/-- C10: `init` never validates the provider against the closed set: any
non-empty string passed explicitly, or present as the config `PROVIDER`
value, is adopted as the provider and `init` proceeds without the
no-provider configuration error, whether or not the string is in
`PROVIDERS`. -/
theorem init_adopts_any_nonempty_provider (s : String) (hs : s ≠ "")
    (m0 : Option String) (interactive : Bool) (config cfgP : Config)
    (line recModel : String) (hP : cfgP.get_env "PROVIDER" = some s) :
    providerOf (init (some s) m0 interactive config line recModel false).result = some s ∧
      isErr (init (some s) m0 interactive config line recModel false).result = false ∧
      providerOf (init none m0 interactive cfgP line recModel false).result = some s ∧
      isErr (init none m0 interactive cfgP line recModel false).result = false := by
  have ht : pyTruthy (some s) = true := by simp [pyTruthy, hs]
  refine ⟨?_, ?_, ?_, ?_⟩ <;>
    simp [init, initBody, resolve_provider, ht, hP, pyTruthy_none, providerOf, isErr]

/-- C10 witness: the string "mistral" is outside the closed provider set,
yet `init` adopts it both as explicit argument and as config value. -/
theorem init_adopts_any_nonempty_provider_witness :
    "mistral" ∉ PROVIDERS ∧
      (providerOf (init (some "mistral") none false ⟨fun _ => none⟩ "" "m" false).result
          = some "mistral" ∧
        isErr (init (some "mistral") none false ⟨fun _ => none⟩ "" "m" false).result = false ∧
        providerOf (init none none false
            ⟨fun k => if k = "PROVIDER" then some "mistral" else none⟩ "" "m" false).result
          = some "mistral" ∧
        isErr (init none none false
            ⟨fun k => if k = "PROVIDER" then some "mistral" else none⟩ "" "m" false).result
          = false) :=
  ⟨by decide,
    init_adopts_any_nonempty_provider "mistral" (by decide) none false ⟨fun _ => none⟩
      ⟨fun k => if k = "PROVIDER" then some "mistral" else none⟩ "" "m" (by simp)⟩

lemma resolve_trace_cases (p0 : Option String) (config : Config) (interactive : Bool)
    (line : String) :
    (resolve_provider p0 config interactive line).2 = [] ∨
      (∃ s, (resolve_provider p0 config interactive line).2 = [Effect.print s]) ∨
      (resolve_provider p0 config interactive line).2 = (ask_for_api_key line).trace := by
  by_cases h1 : pyTruthy (if pyTruthy p0 then p0 else config.get_env "PROVIDER") <;>
    by_cases hO : pyTruthy (config.get_env "OPENAI_API_KEY") <;>
      by_cases hA : pyTruthy (config.get_env "ANTHROPIC_API_KEY") <;>
        cases interactive <;>
          simp [resolve_provider, h1, hO, hA]

/-- C3: in every run of `init` on a fresh process, all credential handling
— the LLM credential/environment setup and every config write (including a
credential persisted by the interactive prompt) — happens strictly before
the history store is initialized, so no credential value can reach the
recorded interactive history. -/
theorem credential_setup_precedes_history (p0 m0 : Option String) (interactive : Bool)
    (config : Config) (line recModel : String) :
    credSetupBeforeHistory (init p0 m0 interactive config line recModel false).trace = true := by
  have h := resolve_trace_cases p0 config interactive line
  by_cases hT : pyTruthy (resolve_provider p0 config interactive line).1 <;>
    rcases h with h | ⟨s, h⟩ | h <;>
      cases interactive <;>
        simp [init, initBody, hT, h, credSetupBeforeHistory, ask_for_api_key,
          List.takeWhile, List.dropWhile, isHistoryInit, isSetConfig, isInitLLM]
